import Mathlib

/-!
Verification development for the takeout road-mapping pipeline
(`process_takeout.py`).  The Python source is shallowly embedded:

* parsed JSON records become Lean structures whose optional keys are
  `Option` fields, mirroring the `dict.get` accesses of the source;
* Python floats produced by dividing E7 integers by `1e7` are modelled as
  exact rationals (`Rat`), so the arithmetic of the source is represented
  exactly;
* Python `datetime` values are tuples of calendar fields compared
  lexicographically, exactly as CPython compares naive datetimes;
* the external collaborators identified by the design document — the
  geodesic distance function (`geopy.distance.geodesic`) and the HTTP
  routing service — are parameters (`geod`, `oracle`) of the embedded
  functions;
* side effects (`print`, the final `geojson.dump`) are reified as an
  ordered list of `Effect` values, and exceptions as `Except PyError`.
-/

deriving instance DecidableEq for Except

/-- Errors the Python code can raise while processing segments and files. -/
inductive PyError where
  | malformedTimestamp
  | parseError
  | indexError
deriving DecidableEq, Repr

/-- Observable side effects of a pipeline run, in order of occurrence:
console output and the single `geojson.dump` at the end. -/
inductive Effect where
  | print (msg : String)
  | writeOutput (features : List (String × List (Rat × Rat) × Rat × String))
deriving DecidableEq, Repr

/-- Python's `str.lower`, modelled character-wise on the `data` list
(ASCII case mapping, which covers every alias and address the table
works with). -/
def pyLower (s : String) : String :=
  String.mk (s.data.map Char.toLower)

/-- Python truthiness of a string (`''` is falsy). -/
def pyTruthyStr (s : String) : Bool :=
  !s.data.isEmpty

/-- Python truthiness of an optional list argument (`None` and `[]` are
falsy, a non-empty list is truthy). -/
def pyTruthyList {α : Type} (o : Option (List α)) : Bool :=
  match o with
  | none => false
  | some l => !l.isEmpty

/-- Python string containment `needle in haystack` on character lists:
true iff `needle` is a contiguous sublist of `haystack`. -/
def substrAux (needle : List Char) : List Char → Bool
  | [] => needle.isEmpty
  | c :: rest => needle.isPrefixOf (c :: rest) || substrAux needle rest

/-- Python's substring test `needle in haystack` for strings. -/
def pyIn (needle haystack : String) : Bool :=
  substrAux needle.toList haystack.toList

/-- Python's `str.endswith` (used for the `.json` suffix test). -/
def pyEndsWith (s suffix : String) : Bool :=
  suffix.toList.isSuffixOf s.toList

/-- Python's `';'.join`: concatenate the strings with the separator
between consecutive elements (empty string for an empty list). -/
def pyJoin (sep : String) : List String → String
  | [] => ""
  | [x] => x
  | x :: y :: rest => x ++ sep ++ pyJoin sep (y :: rest)

/-- A naive CPython `datetime`: the tuple of calendar fields.  CPython
compares naive datetimes by comparing these fields lexicographically. -/
structure PyDateTime where
  year : Nat
  month : Nat
  day : Nat
  hour : Nat
  minute : Nat
  second : Nat
  microsecond : Nat
deriving DecidableEq, Repr

/-- Lexicographic comparison of equal-length field lists. -/
def lexLt : List Nat → List Nat → Bool
  | [], [] => false
  | [], _ :: _ => true
  | _ :: _, [] => false
  | a :: as, b :: bs => a < b || (a == b && lexLt as bs)

/-- Field list of a datetime, in comparison order. -/
def PyDateTime.fields (d : PyDateTime) : List Nat :=
  [d.year, d.month, d.day, d.hour, d.minute, d.second, d.microsecond]

/-- CPython's `<` on naive datetimes. -/
def pyDateLt (a b : PyDateTime) : Bool :=
  lexLt a.fields b.fields

/-- Read exactly `n` decimal digits from the front of a character list. -/
def readDigits (cs : List Char) (n : Nat) : Option (Nat × List Char) :=
  let ds := cs.take n
  if ds.length = n && ds.all (fun c => c.isDigit) then
    some (ds.foldl (fun a c => 10 * a + (c.toNat - 48)) 0, cs.drop n)
  else
    none

/-- Expect one literal character at the front of a character list. -/
def readChar (c : Char) : List Char → Option (List Char)
  | x :: rest => if x == c then some rest else none
  | [] => none

/-- Read the `%f` field of `strptime`: one to six digits, right-padded
with zeros to microseconds (as CPython's `_strptime` does). -/
def readFrac (cs : List Char) : Option (Nat × List Char) :=
  let ds := cs.takeWhile (fun c => c.isDigit)
  if 1 ≤ ds.length && ds.length ≤ 6 then
    some ((ds.foldl (fun a c => 10 * a + (c.toNat - 48)) 0) * 10 ^ (6 - ds.length),
      cs.drop ds.length)
  else
    none

/-- Range validation performed by `strptime`'s field patterns
(`%m` 1–12, `%d` 1–31, `%H` 0–23, `%M` 0–59, `%S` 0–61). -/
def validRanges (mo d h mi s : Nat) : Bool :=
  1 ≤ mo && mo ≤ 12 && 1 ≤ d && d ≤ 31 && h ≤ 23 && mi ≤ 59 && s ≤ 61

/-- `datetime.strptime(s, '%Y-%m-%dT%H:%M:%SZ')`, modelled on the
zero-padded timestamp fields produced by the takeout export. -/
def strptimeWhole (s : String) : Option PyDateTime := do
  let cs := s.toList
  let (y, cs) ← readDigits cs 4
  let cs ← readChar '-' cs
  let (mo, cs) ← readDigits cs 2
  let cs ← readChar '-' cs
  let (d, cs) ← readDigits cs 2
  let cs ← readChar 'T' cs
  let (h, cs) ← readDigits cs 2
  let cs ← readChar ':' cs
  let (mi, cs) ← readDigits cs 2
  let cs ← readChar ':' cs
  let (sec, cs) ← readDigits cs 2
  let cs ← readChar 'Z' cs
  if cs.isEmpty && validRanges mo d h mi sec then
    some ⟨y, mo, d, h, mi, sec, 0⟩
  else
    none

/-- `datetime.strptime(s, '%Y-%m-%dT%H:%M:%S.%fZ')`, modelled on the
zero-padded timestamp fields produced by the takeout export. -/
def strptimeFrac (s : String) : Option PyDateTime := do
  let cs := s.toList
  let (y, cs) ← readDigits cs 4
  let cs ← readChar '-' cs
  let (mo, cs) ← readDigits cs 2
  let cs ← readChar '-' cs
  let (d, cs) ← readDigits cs 2
  let cs ← readChar 'T' cs
  let (h, cs) ← readDigits cs 2
  let cs ← readChar ':' cs
  let (mi, cs) ← readDigits cs 2
  let cs ← readChar ':' cs
  let (sec, cs) ← readDigits cs 2
  let cs ← readChar '.' cs
  let (f, cs) ← readFrac cs
  let cs ← readChar 'Z' cs
  if cs.isEmpty && validRanges mo d h mi sec then
    some ⟨y, mo, d, h, mi, sec, f⟩
  else
    none

/-- `parse_date` (source lines 23–28): try the fractional-second format,
fall back to the whole-second format; `none` models the `ValueError`
raised when neither format matches. -/
def parse_date (date_str : String) : Option PyDateTime :=
  match strptimeFrac date_str with
  | some d => some d
  | none => strptimeWhole date_str

/-- The static alias table `country_map` (source lines 12–17), an ordered
association list exactly as the Python dict literal. -/
def country_map : List (String × List String) :=
  [("sweden", ["sverige", "sweden"]),
   ("usa", ["united states", "usa", "us"]),
   ("spain", ["españa", "spain", "espanya"]),
   ("france", ["france"])]

/-- `normalize_country_name` (source lines 30–36): lowercase, return the
key of the first alias group containing the name, else the lowercased
name itself. -/
def normalize_country_name (name : String) : String :=
  let n := pyLower name
  match country_map.find? (fun p => p.2.contains n) with
  | some p => p.1
  | none => n

/-- The alias list the exclusion test uses for one excluded country:
`country_map.get(normalized, [country.lower()])` (source line 43). -/
def aliasesFor (country : String) : List String :=
  match country_map.find? (fun p => p.1 == normalize_country_name country) with
  | some p => p.2
  | none => [pyLower country]

/-- `filter_by_country` (source lines 38–45): `false` means the address
matched an excluded country and the segment must be dropped. -/
def filter_by_country (address : String) (exclude_countries : List String) : Bool :=
  let addr := pyLower address
  !(exclude_countries.any fun country =>
      (aliasesFor country).any fun al => pyIn al addr)

/-- `startLocation` / `endLocation` records: fixed-point E7 coordinates. -/
structure LocationE7 where
  latitudeE7 : Int
  longitudeE7 : Int
deriving DecidableEq, Repr

/-- One `waypointPath.waypoints` entry. -/
structure Waypoint where
  latE7 : Int
  lngE7 : Int
deriving DecidableEq, Repr

/-- The `waypointPath` record; the `waypoints` key may be absent. -/
structure WaypointPath where
  waypoints : Option (List Waypoint)
deriving DecidableEq, Repr

/-- One `transitPath.transitStops` entry; the `address` key may be absent. -/
structure TransitStop where
  address : Option String
deriving DecidableEq, Repr

/-- The `transitPath` record; the `transitStops` key may be absent. -/
structure TransitPath where
  transitStops : Option (List TransitStop)
deriving DecidableEq, Repr

/-- The `duration` record with its two timestamp strings. -/
structure Duration where
  startTimestamp : String
  endTimestamp : String
deriving DecidableEq, Repr

/-- A parsed `activitySegment` record.  Keys read with `dict.get` in the
source are `Option` fields; keys read with `[]` are required fields. -/
structure ActivitySegment where
  activityType : Option String
  duration : Duration
  startLocation : LocationE7
  endLocation : LocationE7
  waypointPath : Option WaypointPath
  transitPath : Option TransitPath
deriving DecidableEq, Repr

/-- A geofence: `center` in decimal degrees and `radius_km`. -/
structure Geofence where
  center : Rat × Rat
  radius_km : Rat
deriving DecidableEq, Repr

/-- The dictionary returned by `extract_activity_segment` on acceptance. -/
structure ExtractedData where
  activity_type : String
  start_lat : Rat
  start_lon : Rat
  end_lat : Rat
  end_lon : Rat
  waypoints : List (Rat × Rat)
deriving DecidableEq, Repr

/-- The exact value of the source's `x / 1e7` conversion from E7
fixed-point coordinates to decimal degrees: the rational `x / 10^7`. -/
def e7 (v : Int) : Rat :=
  Rat.divInt v 10000000

/-- `is_within_radius` (source lines 19–21); the geodesic distance
computation is an external collaborator, passed as `geod`. -/
def is_within_radius (geod : Rat × Rat → Rat × Rat → Rat)
    (lat lon : Rat) (center : Rat × Rat) (radius_km : Rat) : Bool :=
  decide (geod (lat, lon) center ≤ radius_km)

/-- `activity_segment.get('waypointPath', {}).get('waypoints', [])`
(source line 77). -/
def getWaypoints (seg : ActivitySegment) : List Waypoint :=
  match seg.waypointPath with
  | some wp => wp.waypoints.getD []
  | none => []

/-- `transit_path = activity_segment.get('transitPath', {})` followed by
the `'transitStops' in transit_path` membership test (source lines 62–63):
`some stops` iff the key chain is present. -/
def getTransitStops (seg : ActivitySegment) : Option (List TransitStop) :=
  match seg.transitPath with
  | some tp => tp.transitStops
  | none => none

/-- `stop.get('address', '')` (source line 65). -/
def stopAddress (s : TransitStop) : String :=
  s.address.getD ""

/-- The first transit stop that triggers the country-exclusion early
return (source lines 63–68), or `none` when the block does not reject:
the loop runs only when the `transitStops` key is present and the
exclusion list is truthy, and stops at the first stop whose address is
truthy and fails `filter_by_country`. -/
def excludedStop (exclude_countries : Option (List String))
    (seg : ActivitySegment) : Option TransitStop :=
  match getTransitStops seg with
  | some stops =>
    if pyTruthyList exclude_countries then
      stops.find? fun stop =>
        pyTruthyStr (stopAddress stop) &&
          !filter_by_country (stopAddress stop) (exclude_countries.getD [])
    else none
  | none => none

/-- The date-range rejection test of source line 58:
`(from_date and start_time < from_date) or (to_date and end_time > to_date)`
(a `datetime` object is always truthy, so truthiness is `Option` presence). -/
def dateRangeRejects (from_date to_date : Option PyDateTime)
    (start_time end_time : PyDateTime) : Bool :=
  (match from_date with
   | some f => pyDateLt start_time f
   | none => false) ||
  (match to_date with
   | some t => pyDateLt t end_time
   | none => false)

/-- `extract_activity_segment` (source lines 47–93).  Returns
`.error .malformedTimestamp` when `parse_date` raises, otherwise
`.ok (printed diagnostics, extracted data or rejection)`. -/
def extract_activity_segment (geod : Rat × Rat → Rat × Rat → Rat)
    (geofence : Option Geofence) (activity_filter : Option (List String))
    (from_date to_date : Option PyDateTime)
    (exclude_countries : Option (List String))
    (seg : ActivitySegment) :
    Except PyError (List String × Option ExtractedData) :=
  let activity_type := seg.activityType.getD "UNKNOWN"
  if pyTruthyList activity_filter &&
      !((activity_filter.getD []).contains activity_type) then
    .ok ([], none)
  else
    match parse_date seg.duration.startTimestamp with
    | none => .error .malformedTimestamp
    | some start_time =>
      match parse_date seg.duration.endTimestamp with
      | none => .error .malformedTimestamp
      | some end_time =>
        if dateRangeRejects from_date to_date start_time end_time then
          .ok ([], none)
        else
          match excludedStop exclude_countries seg with
          | some stop =>
            .ok (["Excluding segment with address: " ++ stopAddress stop], none)
          | none =>
            let start_lat := e7 seg.startLocation.latitudeE7
            let start_lon := e7 seg.startLocation.longitudeE7
            let end_lat := e7 seg.endLocation.latitudeE7
            let end_lon := e7 seg.endLocation.longitudeE7
            let waypoint_list := (getWaypoints seg).map fun wp =>
              (e7 wp.latE7, e7 wp.lngE7)
            let accept :=
              match geofence with
              | none => true
              | some gf =>
                ((start_lat, start_lon) :: (end_lat, end_lon) :: waypoint_list).any
                  fun pt => is_within_radius geod pt.1 pt.2 gf.center gf.radius_km
            if accept then
              .ok ([], some {
                activity_type := activity_type,
                start_lat := start_lat, start_lon := start_lon,
                end_lat := end_lat, end_lon := end_lon,
                waypoints := waypoint_list })
            else
              .ok ([], none)

/-- Exact rendering of a rational coordinate.  It stands in for Python's
default float formatting in the request URL; the verified claims concern
the separator structure and ordering of the coordinate list, not the
digit rendering of one number. -/
def ratStr (q : Rat) : String :=
  toString q.num ++ "/" ++ toString q.den

/-- One `lon,lat` entry of the request's coordinate list
(`f"{lon},{lat}"`, source line 97: longitude first). -/
def coordStr (lat lon : Rat) : String :=
  ratStr lon ++ "," ++ ratStr lat

/-- The `;`-separated coordinate section of the OSRM request URL
(source lines 97–98): the formatted start point, a `;`, the `';'.join`
of the formatted waypoints, a `;`, and the formatted end point. -/
def snap_url_coords (start_lat start_lon : Rat) (waypoints : List (Rat × Rat))
    (end_lat end_lon : Rat) : String :=
  let waypoints_str := pyJoin ";" (waypoints.map fun p => coordStr p.1 p.2)
  coordStr start_lat start_lon ++ ";" ++ waypoints_str ++ ";" ++
    coordStr end_lat end_lon

/-- The coordinate section as the specification describes it: the
`';'.join` of the entries for the start point, the waypoints in order,
and the end point, each formatted `lon,lat`. -/
def specCoordSeq (start_lat start_lon : Rat) (waypoints : List (Rat × Rat))
    (end_lat end_lon : Rat) : String :=
  pyJoin ";" (((start_lat, start_lon) :: waypoints ++ [(end_lat, end_lon)]).map
    fun p => coordStr p.1 p.2)

/-- `OSRM_API_URL` (source line 9). -/
def OSRM_API_URL : String :=
  "http://router.project-osrm.org/route/v1/driving/"

/-- The full request URL built by `snap_to_road` (source line 98). -/
def snapUrl (start_lat start_lon : Rat) (waypoints : List (Rat × Rat))
    (end_lat end_lon : Rat) : String :=
  OSRM_API_URL ++ snap_url_coords start_lat start_lon waypoints end_lat end_lon ++
    "?overview=full&geometries=geojson"

/-- The parsed body of an OSRM response (`response.json()`); `routes` is
`none` when the body has no `routes` key, `some l` when it maps `routes`
to the candidate list `l`, each candidate being its
`geometry.coordinates` polyline. -/
structure OsrmBody where
  routes : Option (List (List (Rat × Rat)))
deriving DecidableEq, Repr

/-- One HTTP response of the external routing service. -/
structure SnapResponse where
  status_code : Nat
  body : OsrmBody
  text : String
deriving DecidableEq, Repr

/-- `snap_to_road` (source lines 95–105); the routing service is the
external collaborator `oracle`, a map from request URL to response.
Returns the printed diagnostics and `response.json()` on status 200,
`none` otherwise. -/
def snap_to_road (oracle : String → SnapResponse)
    (start_lat start_lon : Rat) (waypoints : List (Rat × Rat))
    (end_lat end_lon : Rat) : List Effect × Option OsrmBody :=
  let response := oracle (snapUrl start_lat start_lon waypoints end_lat end_lon)
  if response.status_code = 200 then
    ([], some response.body)
  else
    ([Effect.print ("Failed to snap to road: " ++ toString response.status_code ++
        ", " ++ response.text)], none)

/-- One GeoJSON feature of the output: activity type, LineString
coordinates, stroke width, stroke color (source lines 145–152). -/
abbrev Feature : Type :=
  String × List (Rat × Rat) × Rat × String

/-- Build one output feature from extracted data and snapped coordinates. -/
def mkFeature (activity_type : String) (coords : List (Rat × Rat))
    (stroke_width : Rat) (stroke_color : String) : Feature :=
  (activity_type, coords, stroke_width, stroke_color)

/-- The optional filter and style parameters of a pipeline run. -/
structure RunParams where
  geofence : Option Geofence
  activity_filter : Option (List String)
  from_date : Option PyDateTime
  to_date : Option PyDateTime
  exclude_countries : Option (List String)
  stroke_width : Rat
  stroke_color : String

/-- The per-segment loop of `process_takeout_data` (source lines
123–156), processing the `timelineObjects` list of one file: entries
without an `activitySegment` key are skipped; for each segment the route
counter is incremented, the segment is extracted, and on acceptance the
route is snapped; a snapped body with a non-empty `routes` list appends a
feature, a missing `routes` key (or a non-200 response) prints a failure
diagnostic and continues, and an empty `routes` list raises `IndexError`
at `snapped_route['routes'][0]`. -/
def processEntries (geod : Rat × Rat → Rat × Rat → Rat)
    (oracle : String → SnapResponse) (p : RunParams) (fileName : String) :
    List (Option ActivitySegment) → Nat → List Feature →
    List Effect × Except PyError (Nat × List Feature)
  | [], route_count, features => ([], .ok (route_count, features))
  | none :: rest, route_count, features =>
    processEntries geod oracle p fileName rest route_count features
  | some seg :: rest, route_count, features =>
    let rc := route_count + 1
    match extract_activity_segment geod p.geofence p.activity_filter
        p.from_date p.to_date p.exclude_countries seg with
    | .error e => ([], .error e)
    | .ok (msgs, none) =>
      let r := processEntries geod oracle p fileName rest rc features
      (msgs.map Effect.print ++ r.1, r.2)
    | .ok (msgs, some d) =>
      let pre := msgs.map Effect.print ++
        [Effect.print ("  Processing route " ++ toString rc ++ " in file " ++ fileName)]
      let snapped := snap_to_road oracle d.start_lat d.start_lon d.waypoints
        d.end_lat d.end_lon
      match snapped.2 with
      | some body =>
        match body.routes with
        | some (coords0 :: _) =>
          let feature := mkFeature d.activity_type coords0 p.stroke_width p.stroke_color
          let r := processEntries geod oracle p fileName rest rc (features ++ [feature])
          (pre ++ snapped.1 ++
            [Effect.print ("  Successfully processed route " ++ toString rc ++
              " in file " ++ fileName)] ++ r.1, r.2)
        | some [] => (pre ++ snapped.1, .error .indexError)
        | none =>
          let r := processEntries geod oracle p fileName rest rc features
          (pre ++ snapped.1 ++
            [Effect.print ("  Failed to snap route " ++ toString rc ++
              " in file " ++ fileName)] ++ r.1, r.2)
      | none =>
        let r := processEntries geod oracle p fileName rest rc features
        (pre ++ snapped.1 ++
          [Effect.print ("  Failed to snap route " ++ toString rc ++
            " in file " ++ fileName)] ++ r.1, r.2)

/-- One input file: its name and the result of `json.load` on its
content (`.error` models a JSON parse failure; a parsed document is its
`timelineObjects` list, each entry `some seg` when it has an
`activitySegment` key). -/
structure TakeoutFile where
  name : String
  content : Except Unit (List (Option ActivitySegment))
deriving Repr

/-- The per-file loop of `process_takeout_data` (source lines 113–156):
non-`.json` files are skipped (but counted in `total_files`); a file that
fails to parse aborts the run; otherwise its entries are processed and
the accumulated features carried to the next file. -/
def processFiles (geod : Rat × Rat → Rat × Rat → Rat)
    (oracle : String → SnapResponse) (p : RunParams) (total : Nat) :
    List TakeoutFile → Nat → List Feature →
    List Effect × Except PyError (Nat × List Feature)
  | [], file_count, features => ([], .ok (file_count, features))
  | f :: rest, file_count, features =>
    if pyEndsWith f.name ".json" then
      let fc := file_count + 1
      let pre := Effect.print ("Processing file " ++ toString fc ++ "/" ++
        toString total ++ ": " ++ f.name)
      match f.content with
      | .error _ => ([pre], .error .parseError)
      | .ok entries =>
        match processEntries geod oracle p f.name entries 0 features with
        | (effs, .error e) => (pre :: effs, .error e)
        | (effs, .ok r) =>
          let rec2 := processFiles geod oracle p total rest fc r.2
          (pre :: effs ++ rec2.1, rec2.2)
    else
      processFiles geod oracle p total rest file_count features

/-- `process_takeout_data` (source lines 107–161): walk the files,
process each, and only after the full traversal write the accumulated
feature collection once (`geojson.dump`, source lines 158–161); any
error raised during the traversal propagates with no write.  The
directory walk itself is an external collaborator, abstracted as the
enumerated file list. -/
def process_takeout_data (geod : Rat × Rat → Rat × Rat → Rat)
    (oracle : String → SnapResponse) (p : RunParams)
    (files : List TakeoutFile) : List Effect × Except PyError (List Feature) :=
  let total := files.length
  match processFiles geod oracle p total files 0 [] with
  | (effs, .error e) => (effs, .error e)
  | (effs, .ok r) =>
    (effs ++ [Effect.writeOutput r.2,
      Effect.print "Filtered routes with road snapping saved"], .ok r.2)

/-- A concrete stand-in for the external geodesic distance function,
used to instantiate theorems about the geofence filter: distance zero
from a point to itself, 785 km (the true geodesic distance from (0,0)
to (5,5) is about 785 km) otherwise. -/
def modelGeod (pnt c : Rat × Rat) : Rat :=
  if pnt = c then 0 else 785

/-- A routing oracle answering every request with HTTP 200 and a body
whose `routes` key holds an empty candidate list. -/
def oracleEmptyRoutes : String → SnapResponse :=
  fun _ => { status_code := 200, body := { routes := some [] }, text := "" }

/-- A routing oracle answering every request with HTTP 500. -/
def oracle500 : String → SnapResponse :=
  fun _ => { status_code := 500, body := { routes := none }, text := "Internal Server Error" }

/-- Pipeline parameters with no filters and the default style. -/
def p0 : RunParams :=
  { geofence := none, activity_filter := none, from_date := none,
    to_date := none, exclude_countries := none,
    stroke_width := 2, stroke_color := "#FF0000" }

/-- A plain demo segment: no `activityType` key, parseable timestamps,
all coordinates zero, no waypoints and no transit stops. -/
def segPlain : ActivitySegment :=
  { activityType := none,
    duration := { startTimestamp := "2021-01-01T00:00:00Z",
                  endTimestamp := "2021-01-02T00:00:00Z" },
    startLocation := { latitudeE7 := 0, longitudeE7 := 0 },
    endLocation := { latitudeE7 := 0, longitudeE7 := 0 },
    waypointPath := none, transitPath := none }

/-- The extracted data of `segPlain`. -/
def dPlain : ExtractedData :=
  { activity_type := "UNKNOWN", start_lat := 0, start_lon := 0,
    end_lat := 0, end_lon := 0, waypoints := [] }

/-- A demo segment whose timestamps match neither accepted format. -/
def segBadTs : ActivitySegment :=
  { activityType := some "IN_PASSENGER_VEHICLE",
    duration := { startTimestamp := "garbage", endTimestamp := "garbage" },
    startLocation := { latitudeE7 := 0, longitudeE7 := 0 },
    endLocation := { latitudeE7 := 0, longitudeE7 := 0 },
    waypointPath := none, transitPath := none }

/-- A demo segment with one transit stop in Stockholm. -/
def segStockholm : ActivitySegment :=
  { activityType := none,
    duration := { startTimestamp := "2021-01-01T00:00:00Z",
                  endTimestamp := "2021-01-02T00:00:00Z" },
    startLocation := { latitudeE7 := 0, longitudeE7 := 0 },
    endLocation := { latitudeE7 := 0, longitudeE7 := 0 },
    waypointPath := none,
    transitPath := some { transitStops := some [{ address := some "Stockholm, Sverige" }] } }

/-- A demo segment whose transit stops carry no usable address. -/
def segEmptyAddr : ActivitySegment :=
  { activityType := none,
    duration := { startTimestamp := "2021-01-01T00:00:00Z",
                  endTimestamp := "2021-01-02T00:00:00Z" },
    startLocation := { latitudeE7 := 0, longitudeE7 := 0 },
    endLocation := { latitudeE7 := 0, longitudeE7 := 0 },
    waypointPath := none,
    transitPath := some { transitStops := some [{ address := none }, { address := some "" }] } }

/-- A demo segment with nonzero fixed-point coordinates and two waypoints. -/
def segWp : ActivitySegment :=
  { activityType := some "IN_PASSENGER_VEHICLE",
    duration := { startTimestamp := "2021-01-01T00:00:00Z",
                  endTimestamp := "2021-01-02T00:00:00Z" },
    startLocation := { latitudeE7 := 591234567, longitudeE7 := 112345678 },
    endLocation := { latitudeE7 := 600000000, longitudeE7 := 120000000 },
    waypointPath := some { waypoints := some [{ latE7 := 595000000, lngE7 := 115000000 },
                                              { latE7 := 596000000, lngE7 := 116000000 }] },
    transitPath := none }

/-- The extracted data of `segWp`. -/
def dWp : ExtractedData :=
  { activity_type := "IN_PASSENGER_VEHICLE",
    start_lat := e7 591234567, start_lon := e7 112345678,
    end_lat := e7 600000000, end_lon := e7 120000000,
    waypoints := [(e7 595000000, e7 115000000), (e7 596000000, e7 116000000)] }

/-- A `.json` file holding one plain segment. -/
def fileGood : TakeoutFile :=
  { name := "a.json", content := .ok [some segPlain] }

/-- A `.json` file holding one segment with malformed timestamps. -/
def fileBad : TakeoutFile :=
  { name := "bad.json", content := .ok [some segBadTs] }

/-- The demo geofence: center (0,0), radius 10 km. -/
def gf0 : Geofence :=
  { center := (0, 0), radius_km := 10 }

/-- A demo segment with start (5,5) and end (6,6) in decimal degrees. -/
def seg56 : ActivitySegment :=
  { activityType := none,
    duration := { startTimestamp := "2021-01-01T00:00:00Z",
                  endTimestamp := "2021-01-02T00:00:00Z" },
    startLocation := { latitudeE7 := 50000000, longitudeE7 := 50000000 },
    endLocation := { latitudeE7 := 60000000, longitudeE7 := 60000000 },
    waypointPath := none, transitPath := none }

/-- The alias groups of `country_map` are pairwise disjoint: a lowercased
name belongs to at most one group, so the first group containing it is
the unique group containing it. -/
theorem country_map_disjoint (a : String) (p q : String × List String)
    (hp : p ∈ country_map) (hq : q ∈ country_map)
    (hap : a ∈ p.2) (haq : a ∈ q.2) : p = q := by
  fin_cases hp <;> fin_cases hq <;> simp_all <;> casesm* _ ∨ _ <;> simp_all

/-- C8: `normalize_country_name` lowercases its input; when some alias
group of `country_map` contains the lowercased input it returns that
group's canonical key (the groups are pairwise disjoint, so the first
containing group is the unique one), and otherwise it returns the
lowercased input unchanged, so unknown country names pass through as
their own key. -/
theorem c8_normalize (name : String) :
    (∀ p ∈ country_map, pyLower name ∈ p.2 →
        normalize_country_name name = p.1) ∧
    ((∀ p ∈ country_map, pyLower name ∉ p.2) →
        normalize_country_name name = pyLower name) := by
  constructor
  · intro p hp hmem
    have hsome : (country_map.find? (fun g => g.2.contains (pyLower name))).isSome := by
      rw [List.find?_isSome]
      exact ⟨p, hp, by simpa using hmem⟩
    obtain ⟨q, hq⟩ := Option.isSome_iff_exists.mp hsome
    have hqmem : q ∈ country_map := List.mem_of_find?_eq_some hq
    have hqcont := List.find?_some hq
    have : q = p :=
      country_map_disjoint (pyLower name) q p hqmem hp (by simpa using hqcont) hmem
    simp only [normalize_country_name]
    rw [hq, this]
  · intro hall
    have hnone : country_map.find? (fun g => g.2.contains (pyLower name)) = none := by
      rw [List.find?_eq_none]
      intro g hg
      simpa using hall g hg
    simp only [normalize_country_name]
    rw [hnone]

/-- C8 witness: a known alias maps to its canonical key and an unknown
country passes through lowercased. -/
theorem c8_witness :
    normalize_country_name "Sverige" = "sweden" ∧
    normalize_country_name "Norway" = "norway" :=
  ⟨(c8_normalize "Sverige").1 ("sweden", ["sverige", "sweden"]) (by decide) (by decide),
   (c8_normalize "Norway").2 (by decide)⟩

/-- Python's `join` distributes over appending one last element to a
non-empty list. -/
theorem pyJoin_append_last (sep x : String) :
    ∀ l : List String, l ≠ [] → pyJoin sep (l ++ [x]) = pyJoin sep l ++ sep ++ x
  | [], h => absurd rfl h
  | [a], _ => rfl
  | a :: b :: rest, _ => by
    have ih := pyJoin_append_last sep x (b :: rest) (by simp)
    show a ++ sep ++ pyJoin sep ((b :: rest) ++ [x]) =
      (a ++ sep ++ pyJoin sep (b :: rest)) ++ sep ++ x
    rw [ih]
    simp [String.append_assoc]

/-- C2 (amended): for a non-empty waypoint list, the `;`-separated
coordinate section of the snapping request is exactly the join of the
entries for the start point, the waypoints in their original order, and
the end point, each formatted `lon,lat` (longitude first). -/
theorem c2_nonempty_waypoints (start_lat start_lon end_lat end_lon : Rat)
    (waypoints : List (Rat × Rat)) (h : waypoints ≠ []) :
    snap_url_coords start_lat start_lon waypoints end_lat end_lon =
      specCoordSeq start_lat start_lon waypoints end_lat end_lon := by
  obtain ⟨w, ws, rfl⟩ := List.exists_cons_of_ne_nil h
  unfold snap_url_coords specCoordSeq
  simp only [List.map_append, List.map_cons, List.map_nil]
  rw [pyJoin_append_last _ _ _ (by simp)]
  simp only [pyJoin]

/-- C2 (counterexample): with an empty waypoint list, the produced
coordinate section is `start;;end` — it contains a stray empty entry —
and differs from the claimed `start;end` sequence. -/
theorem c2_counterexample :
    snap_url_coords 1 2 [] 3 4 ≠ specCoordSeq 1 2 [] 3 4 := by
  decide

/-- C2 witness: a concrete segment with one waypoint, where the amended
statement evaluates to a plain equality of strings. -/
theorem c2_witness :
    snap_url_coords 1 2 [(5, 6)] 3 4 = specCoordSeq 1 2 [(5, 6)] 3 4 :=
  c2_nonempty_waypoints 1 2 3 4 [(5, 6)] (by decide)

/-- C4: for parseable timestamps the date-range test rejects exactly when
a `from` bound is set and the segment start is strictly before it, or a
`to` bound is set and the segment end is strictly after it; concretely,
the segment starting 2021-01-01T00:00:00Z is rejected for
from = 2021-01-01T12:00:00 and passes this check (and, with no further
filters, is accepted) for from = 2020-12-31T00:00:00. -/
theorem c4_date_filter :
    (∀ (from_date to_date : Option PyDateTime) (start_time end_time : PyDateTime),
        dateRangeRejects from_date to_date start_time end_time = true ↔
          ((∃ f, from_date = some f ∧ pyDateLt start_time f = true) ∨
           (∃ t, to_date = some t ∧ pyDateLt t end_time = true))) ∧
    extract_activity_segment modelGeod none none
        (some ⟨2021, 1, 1, 12, 0, 0, 0⟩) none none segPlain = .ok ([], none) ∧
    extract_activity_segment modelGeod none none
        (some ⟨2020, 12, 31, 0, 0, 0, 0⟩) none none segPlain =
      .ok ([], some dPlain) := by
  refine ⟨fun fd td st en => ?_, by decide, by decide⟩
  cases fd <;> cases td <;> simp [dateRangeRejects]

/-- C7: a segment rejected by a non-empty activity-type allow-list is
rejected before its timestamps are parsed: the call returns a clean
rejection (no diagnostics, no data, no exception) whatever the timestamp
strings hold, so such a segment can never raise MalformedTimestamp. -/
theorem c7_activity_short_circuit (geod : Rat × Rat → Rat × Rat → Rat)
    (geofence : Option Geofence) (from_date to_date : Option PyDateTime)
    (exclude_countries : Option (List String)) (seg : ActivitySegment)
    (l : List String) (hne : l ≠ [])
    (hmem : l.contains (seg.activityType.getD "UNKNOWN") = false) :
    extract_activity_segment geod geofence (some l) from_date to_date
      exclude_countries seg = .ok ([], none) := by
  have hm : seg.activityType.getD "UNKNOWN" ∉ l := by
    simpa using hmem
  unfold extract_activity_segment
  simp [pyTruthyList, hne, hm]

/-- C7 witness: a drive segment with unparseable timestamps, filtered out
by a walking-only allow-list, is rejected without an exception. -/
theorem c7_witness :
    extract_activity_segment modelGeod none (some ["WALKING"]) none none none
      segBadTs = .ok ([], none) :=
  c7_activity_short_circuit modelGeod none none none none segBadTs
    ["WALKING"] (by decide) (by decide)

/-- C10: when an excluded country's normalized name is not a key of the
alias table, the exclusion test falls back to the lowercased country
name itself as the only alias, so the segment is excluded exactly when
that name occurs as a substring of the lowercased address; and transit
stops whose address key is absent or empty never trigger exclusion. -/
theorem c10_fallback_and_empty_address :
    (∀ country address : String,
        country_map.find? (fun p => p.1 == normalize_country_name country) = none →
        filter_by_country address [country] =
          !pyIn (pyLower country) (pyLower address)) ∧
    (∀ (exclude_countries : Option (List String)) (seg : ActivitySegment)
        (stops : List TransitStop), getTransitStops seg = some stops →
        (∀ s ∈ stops, stopAddress s = "") →
        excludedStop exclude_countries seg = none) := by
  constructor
  · intro country address h
    simp [filter_by_country, aliasesFor, h]
  · intro ec seg stops hst hall
    unfold excludedStop
    rw [hst]
    show (if pyTruthyList ec = true then
        stops.find? (fun stop => pyTruthyStr (stopAddress stop) &&
          !filter_by_country (stopAddress stop) (ec.getD [])) else none) = none
    by_cases hec : pyTruthyList ec = true
    · rw [if_pos hec]
      refine List.find?_eq_none.mpr fun s hs => ?_
      rw [hall s hs]
      have hfalse : pyTruthyStr "" = false := by decide
      simp [hfalse]
    · rw [if_neg hec]

/-- C10 witness: "Norway" is not in the alias table, yet an address
containing "norway" is excluded via the lowercased-name fallback; and a
segment whose stops have no usable address is not excluded. -/
theorem c10_witness :
    filter_by_country "Oslo, Norway" ["Norway"] =
      !pyIn (pyLower "Norway") (pyLower "Oslo, Norway") ∧
    excludedStop (some ["Sweden"]) segEmptyAddr = none :=
  ⟨c10_fallback_and_empty_address.1 "Norway" "Oslo, Norway" (by decide),
   c10_fallback_and_empty_address.2 (some ["Sweden"]) segEmptyAddr
     [{ address := none }, { address := some "" }] (by decide) (by decide)⟩

/-- C5: when an exclusion list is supplied and a segment that passed the
activity and date checks carries transit stops, a stop whose (non-empty)
address contains — case-insensitively, as a substring — an alias of some
excluded country after normalization rejects the whole segment, and the
emitted diagnostic names the matching stop's address. -/
theorem c5_country_exclusion (geod : Rat × Rat → Rat × Rat → Rat)
    (geofence : Option Geofence) (activity_filter : Option (List String))
    (from_date to_date : Option PyDateTime) (seg : ActivitySegment)
    (cl : List String) (stops : List TransitStop) (st en : PyDateTime)
    (hact : (pyTruthyList activity_filter &&
        !((activity_filter.getD []).contains (seg.activityType.getD "UNKNOWN"))) = false)
    (hps : parse_date seg.duration.startTimestamp = some st)
    (hpe : parse_date seg.duration.endTimestamp = some en)
    (hdate : dateRangeRejects from_date to_date st en = false)
    (hstops : getTransitStops seg = some stops)
    (hne : cl ≠ [])
    (hmatch : ∃ s ∈ stops, pyTruthyStr (stopAddress s) = true ∧
        ∃ c ∈ cl, ∃ al ∈ aliasesFor c, pyIn al (pyLower (stopAddress s)) = true) :
    ∃ s ∈ stops, pyTruthyStr (stopAddress s) = true ∧
      (∃ c ∈ cl, ∃ al ∈ aliasesFor c, pyIn al (pyLower (stopAddress s)) = true) ∧
      extract_activity_segment geod geofence activity_filter from_date to_date
        (some cl) seg =
        .ok (["Excluding segment with address: " ++ stopAddress s], none) := by
  have hfilter : ∀ a : String, filter_by_country a cl = false ↔
      ∃ c ∈ cl, ∃ al ∈ aliasesFor c, pyIn al (pyLower a) = true := by
    intro a
    simp [filter_by_country, List.any_eq_true]
  have hsome : (stops.find? (fun stop => pyTruthyStr (stopAddress stop) &&
      !filter_by_country (stopAddress stop) cl)).isSome := by
    rw [List.find?_isSome]
    obtain ⟨s, hs, htr, hrest⟩ := hmatch
    refine ⟨s, hs, ?_⟩
    rw [htr, Bool.true_and, Bool.not_eq_true']
    exact (hfilter (stopAddress s)).mpr hrest
  obtain ⟨s₀, hfind⟩ := Option.isSome_iff_exists.mp hsome
  have hmem : s₀ ∈ stops := List.mem_of_find?_eq_some hfind
  have hpred := List.find?_some hfind
  rw [Bool.and_eq_true, Bool.not_eq_true'] at hpred
  have hexcl : excludedStop (some cl) seg = some s₀ := by
    unfold excludedStop
    rw [hstops]
    show (if pyTruthyList (some cl) = true then
        stops.find? (fun stop => pyTruthyStr (stopAddress stop) &&
          !filter_by_country (stopAddress stop) cl) else none) = some s₀
    rw [if_pos (by simp [pyTruthyList, hne]), hfind]
  refine ⟨s₀, hmem, hpred.1, (hfilter (stopAddress s₀)).mp hpred.2, ?_⟩
  simp only [extract_activity_segment]
  rw [hact]
  simp only [Bool.false_eq_true, if_false]
  rw [hps, hpe]
  simp only []
  rw [hdate]
  simp only [Bool.false_eq_true, if_false]
  rw [hexcl]

/-- C5 witness: the segment with stop address "Stockholm, Sverige" and
excluded countries ["Sweden"] is rejected via the alias "sverige", with
a diagnostic naming the address. -/
theorem c5_witness :
    ∃ s ∈ [({ address := some "Stockholm, Sverige" } : TransitStop)],
      pyTruthyStr (stopAddress s) = true ∧
      (∃ c ∈ ["Sweden"], ∃ al ∈ aliasesFor c,
        pyIn al (pyLower (stopAddress s)) = true) ∧
      extract_activity_segment modelGeod none none none none
        (some ["Sweden"]) segStockholm =
        .ok (["Excluding segment with address: " ++ stopAddress s], none) :=
  c5_country_exclusion modelGeod none none none none segStockholm ["Sweden"]
    [{ address := some "Stockholm, Sverige" }]
    ⟨2021, 1, 1, 0, 0, 0, 0⟩ ⟨2021, 1, 2, 0, 0, 0, 0⟩
    (by decide) (by decide) (by decide) (by decide) (by decide) (by decide)
    (by decide)

/-- C6: for a segment that passes the activity, date and country checks,
with a geofence supplied the segment is accepted exactly when at least
one of its start point, end point and waypoints (in decimal degrees)
lies within `radius_km` geodesic distance of the geofence center. -/
theorem c6_geofence (geod : Rat × Rat → Rat × Rat → Rat) (gf : Geofence)
    (activity_filter : Option (List String)) (from_date to_date : Option PyDateTime)
    (exclude_countries : Option (List String)) (seg : ActivitySegment)
    (st en : PyDateTime)
    (hact : (pyTruthyList activity_filter &&
        !((activity_filter.getD []).contains (seg.activityType.getD "UNKNOWN"))) = false)
    (hps : parse_date seg.duration.startTimestamp = some st)
    (hpe : parse_date seg.duration.endTimestamp = some en)
    (hdate : dateRangeRejects from_date to_date st en = false)
    (hexc : excludedStop exclude_countries seg = none) :
    (∃ d, extract_activity_segment geod (some gf) activity_filter from_date
        to_date exclude_countries seg = .ok ([], some d)) ↔
      ∃ pt ∈ ((e7 seg.startLocation.latitudeE7, e7 seg.startLocation.longitudeE7) ::
          (e7 seg.endLocation.latitudeE7, e7 seg.endLocation.longitudeE7) ::
          (getWaypoints seg).map (fun wp => (e7 wp.latE7, e7 wp.lngE7))),
        geod pt gf.center ≤ gf.radius_km := by
  simp only [extract_activity_segment]
  rw [hact]
  simp only [Bool.false_eq_true, if_false]
  rw [hps, hpe]
  simp only []
  rw [hdate]
  simp only [Bool.false_eq_true, if_false]
  rw [hexc]
  simp only []
  by_cases hacc : ((e7 seg.startLocation.latitudeE7, e7 seg.startLocation.longitudeE7) ::
      (e7 seg.endLocation.latitudeE7, e7 seg.endLocation.longitudeE7) ::
      (getWaypoints seg).map (fun wp => (e7 wp.latE7, e7 wp.lngE7))).any
      (fun pt => is_within_radius geod pt.1 pt.2 gf.center gf.radius_km) = true
  · rw [if_pos hacc]
    rw [List.any_eq_true] at hacc
    obtain ⟨pt, hpt, hw⟩ := hacc
    constructor
    · intro _
      refine ⟨pt, hpt, ?_⟩
      simpa [is_within_radius] using hw
    · intro _
      exact ⟨_, rfl⟩
  · rw [if_neg hacc]
    rw [List.any_eq_true] at hacc
    constructor
    · intro ⟨d, hd⟩
      simp at hd
    · intro ⟨pt, hpt, hw⟩
      exact absurd ⟨pt, hpt, by simpa [is_within_radius] using hw⟩ hacc

/-- C6 witness: with center (0,0) and radius 10 km, the segment starting
at (0,0) is accepted (its start point is inside the circle) and the
segment with start (5,5), end (6,6) and no waypoints is rejected, for a
geodesic model measuring 0 km from a point to itself and 785 km
otherwise. -/
theorem c6_witness :
    (∃ d, extract_activity_segment modelGeod (some gf0) none none none none
        segPlain = .ok ([], some d)) ∧
    ¬(∃ d, extract_activity_segment modelGeod (some gf0) none none none none
        seg56 = .ok ([], some d)) :=
  ⟨(c6_geofence modelGeod gf0 none none none none segPlain
      ⟨2021, 1, 1, 0, 0, 0, 0⟩ ⟨2021, 1, 2, 0, 0, 0, 0⟩
      (by decide) (by decide) (by decide) (by decide) (by decide)).mpr
    (by decide),
   fun h => absurd ((c6_geofence modelGeod gf0 none none none none seg56
      ⟨2021, 1, 1, 0, 0, 0, 0⟩ ⟨2021, 1, 2, 0, 0, 0, 0⟩
      (by decide) (by decide) (by decide) (by decide) (by decide)).mp h)
    (by decide)⟩

/-- The exact rational produced by the embedding's E7 conversion is the
fixed-point value divided by 10^7. -/
theorem e7_eq_div (v : Int) : e7 v = (v : Rat) / (10 ^ 7 : Rat) := by
  unfold e7
  rw [Rat.divInt_eq_div]
  norm_num

/-- C9: whenever extraction accepts a segment, the produced decimal
coordinates are exactly the E7 fixed-point values divided by 10^7 —
start point, end point, and every waypoint — and the extracted waypoint
list is the source's waypoint list mapped in order. -/
theorem c9_coordinates (geod : Rat × Rat → Rat × Rat → Rat)
    (geofence : Option Geofence) (activity_filter : Option (List String))
    (from_date to_date : Option PyDateTime) (exclude_countries : Option (List String))
    (seg : ActivitySegment) (msgs : List String) (d : ExtractedData)
    (h : extract_activity_segment geod geofence activity_filter from_date to_date
        exclude_countries seg = .ok (msgs, some d)) :
    d.start_lat = (seg.startLocation.latitudeE7 : Rat) / (10 ^ 7 : Rat) ∧
    d.start_lon = (seg.startLocation.longitudeE7 : Rat) / (10 ^ 7 : Rat) ∧
    d.end_lat = (seg.endLocation.latitudeE7 : Rat) / (10 ^ 7 : Rat) ∧
    d.end_lon = (seg.endLocation.longitudeE7 : Rat) / (10 ^ 7 : Rat) ∧
    d.waypoints = (getWaypoints seg).map
      (fun wp => ((wp.latE7 : Rat) / (10 ^ 7 : Rat),
        (wp.lngE7 : Rat) / (10 ^ 7 : Rat))) := by
  simp only [extract_activity_segment] at h
  split at h
  · simp at h
  · split at h
    · simp at h
    · split at h
      · simp at h
      · split at h
        · simp at h
        · split at h
          · simp at h
          · split at h
            · simp only [Except.ok.injEq, Prod.mk.injEq, Option.some.injEq] at h
              obtain ⟨-, hd⟩ := h
              subst hd
              refine ⟨?_, ?_, ?_, ?_, ?_⟩ <;> simp [e7_eq_div]
            · simp at h

/-- C9 witness: a concrete accepted segment with two waypoints, whose
extracted coordinates are the E7 values divided by 10^7, in order. -/
theorem c9_witness :
    dWp.start_lat = (segWp.startLocation.latitudeE7 : Rat) / (10 ^ 7 : Rat) ∧
    dWp.start_lon = (segWp.startLocation.longitudeE7 : Rat) / (10 ^ 7 : Rat) ∧
    dWp.end_lat = (segWp.endLocation.latitudeE7 : Rat) / (10 ^ 7 : Rat) ∧
    dWp.end_lon = (segWp.endLocation.longitudeE7 : Rat) / (10 ^ 7 : Rat) ∧
    dWp.waypoints = (getWaypoints segWp).map
      (fun wp => ((wp.latE7 : Rat) / (10 ^ 7 : Rat),
        (wp.lngE7 : Rat) / (10 ^ 7 : Rat))) :=
  c9_coordinates modelGeod none none none none none segWp [] dWp (by decide)

/-- `snap_to_road` prints diagnostics only; it never writes the output. -/
theorem snap_to_road_no_write (oracle : String → SnapResponse)
    (a b : Rat) (wps : List (Rat × Rat)) (c d : Rat) (fc : List Feature) :
    Effect.writeOutput fc ∉ (snap_to_road oracle a b wps c d).1 := by
  simp only [snap_to_road]
  split <;> simp

/-- The per-segment loop prints diagnostics only; it never writes. -/
theorem processEntries_no_write (geod : Rat × Rat → Rat × Rat → Rat)
    (oracle : String → SnapResponse) (p : RunParams) (fn : String) :
    ∀ (entries : List (Option ActivitySegment)) (rc : Nat)
      (feats fc : List Feature),
      Effect.writeOutput fc ∉ (processEntries geod oracle p fn entries rc feats).1 := by
  intro entries
  induction entries with
  | nil => intro rc feats fc; simp [processEntries]
  | cons head rest ih =>
    intro rc feats fc
    cases head with
    | none => simpa only [processEntries] using ih rc feats fc
    | some seg =>
      simp only [processEntries]
      rcases hx : extract_activity_segment geod p.geofence p.activity_filter
          p.from_date p.to_date p.exclude_countries seg with e | ⟨msgs, od⟩
      · simp
      · rcases od with _ | d
        · simp only []
          have := ih (rc + 1) feats fc
          simp [List.mem_append, List.mem_map, this]
        · simp only []
          rcases hsn : (snap_to_road oracle d.start_lat d.start_lon d.waypoints
              d.end_lat d.end_lon).2 with _ | body
          · have h1 := ih (rc + 1) feats fc
            have h2 := snap_to_road_no_write oracle d.start_lat d.start_lon
              d.waypoints d.end_lat d.end_lon fc
            simp [List.mem_append, List.mem_map, h1, h2]
          · rcases body with ⟨routes⟩
            rcases routes with _ | ⟨_ | ⟨coords0, more⟩⟩
            · have h1 := ih (rc + 1) feats fc
              have h2 := snap_to_road_no_write oracle d.start_lat d.start_lon
                d.waypoints d.end_lat d.end_lon fc
              simp [List.mem_append, List.mem_map, h1, h2]
            · have h2 := snap_to_road_no_write oracle d.start_lat d.start_lon
                d.waypoints d.end_lat d.end_lon fc
              simp [List.mem_append, List.mem_map, h2]
            · have h1 := ih (rc + 1)
                (feats ++ [mkFeature d.activity_type coords0 p.stroke_width p.stroke_color]) fc
              have h2 := snap_to_road_no_write oracle d.start_lat d.start_lon
                d.waypoints d.end_lat d.end_lon fc
              simp [List.mem_append, List.mem_map, h1, h2]

/-- The per-file loop prints diagnostics only; it never writes. -/
theorem processFiles_no_write (geod : Rat × Rat → Rat × Rat → Rat)
    (oracle : String → SnapResponse) (p : RunParams) (total : Nat) :
    ∀ (files : List TakeoutFile) (count : Nat) (feats fc : List Feature),
      Effect.writeOutput fc ∉ (processFiles geod oracle p total files count feats).1 := by
  intro files
  induction files with
  | nil => intro count feats fc; simp [processFiles]
  | cons f rest ih =>
    intro count feats fc
    simp only [processFiles]
    by_cases hjson : pyEndsWith f.name ".json" = true
    · rw [if_pos hjson]
      rcases f.content with e | entries
      · simp
      · simp only []
        rcases hpe : processEntries geod oracle p f.name entries 0 feats with ⟨effs, r⟩
        have hent : Effect.writeOutput fc ∉ effs := by
          have := processEntries_no_write geod oracle p f.name entries 0 feats fc
          rw [hpe] at this
          exact this
        rcases r with e | r
        · simpa using hent
        · have h1 := ih (count + 1) r.2 fc
          simp [List.mem_append, hent, h1]
    · rw [if_neg hjson]
      exact ih count feats fc

/-- C3: the pipeline writes the output exactly once, after the full
traversal: on a successful run the effect trace ends with the single
write (and contains no other write), and on any fatal error — a malformed
timestamp, a JSON parse failure, or the empty-candidate-list index error —
the run aborts with no write at all, so no output file is produced. -/
theorem c3_write_once_after_traversal (geod : Rat × Rat → Rat × Rat → Rat)
    (oracle : String → SnapResponse) (p : RunParams) (files : List TakeoutFile) :
    (∀ e, (process_takeout_data geod oracle p files).2 = .error e →
      ∀ fc, Effect.writeOutput fc ∉ (process_takeout_data geod oracle p files).1) ∧
    (∀ feats, (process_takeout_data geod oracle p files).2 = .ok feats →
      ∃ effs0, (process_takeout_data geod oracle p files).1 =
          effs0 ++ [Effect.writeOutput feats,
            Effect.print "Filtered routes with road snapping saved"] ∧
        ∀ fc, Effect.writeOutput fc ∉ effs0) := by
  rcases hpf : processFiles geod oracle p files.length files 0 [] with ⟨effs, r⟩
  have hnw : ∀ fc, Effect.writeOutput fc ∉ effs := by
    intro fc
    have := processFiles_no_write geod oracle p files.length files 0 [] fc
    rw [hpf] at this
    exact this
  rcases r with e | r
  · have hmain : process_takeout_data geod oracle p files = (effs, .error e) := by
      simp only [process_takeout_data]
      rw [hpf]
    rw [hmain]
    exact ⟨fun _ _ fc => hnw fc, fun feats h => by simp at h⟩
  · have hmain : process_takeout_data geod oracle p files =
        (effs ++ [Effect.writeOutput r.2,
          Effect.print "Filtered routes with road snapping saved"], .ok r.2) := by
      simp only [process_takeout_data]
      rw [hpf]
    rw [hmain]
    refine ⟨fun e h => by simp at h, fun feats h => ?_⟩
    obtain rfl : r.2 = feats := by simpa using h
    exact ⟨effs, rfl, hnw⟩

/-- C3 witness: a run over one file holding a segment with malformed
timestamps aborts with MalformedTimestamp and its effect trace contains
no write of the output. -/
theorem c3_witness :
    Effect.writeOutput [] ∉
      (process_takeout_data modelGeod oracle500 p0 [fileBad]).1 :=
  (c3_write_once_after_traversal modelGeod oracle500 p0 [fileBad]).1
    .malformedTimestamp (by decide) []

/-- C1 (amended): for an accepted segment, a routing response with a
non-success status, or a success status whose body has no candidate-route
list at all (no `routes` key), is a recoverable per-segment outcome: the
segment contributes only diagnostic prints (at least one), no feature is
appended, no error is raised, and processing continues with the remaining
entries unchanged. -/
theorem c1_snap_failure_recoverable (geod : Rat × Rat → Rat × Rat → Rat)
    (oracle : String → SnapResponse) (p : RunParams) (fn : String)
    (seg : ActivitySegment) (rest : List (Option ActivitySegment))
    (rc : Nat) (feats : List Feature) (msgs : List String) (d : ExtractedData)
    (hx : extract_activity_segment geod p.geofence p.activity_filter p.from_date
        p.to_date p.exclude_countries seg = .ok (msgs, some d))
    (hfail : (oracle (snapUrl d.start_lat d.start_lon d.waypoints d.end_lat
          d.end_lon)).status_code ≠ 200 ∨
        (oracle (snapUrl d.start_lat d.start_lon d.waypoints d.end_lat
          d.end_lon)).body.routes = none) :
    ∃ ms, ms ≠ [] ∧
      processEntries geod oracle p fn (some seg :: rest) rc feats =
        (ms ++ (processEntries geod oracle p fn rest (rc + 1) feats).1,
         (processEntries geod oracle p fn rest (rc + 1) feats).2) := by
  simp only [processEntries]
  rw [hx]
  simp only [snap_to_road]
  by_cases h200 : (oracle (snapUrl d.start_lat d.start_lon d.waypoints
      d.end_lat d.end_lon)).status_code = 200
  · have hroutes : (oracle (snapUrl d.start_lat d.start_lon d.waypoints
        d.end_lat d.end_lon)).body.routes = none := by
      rcases hfail with h | h
      · exact absurd h200 h
      · exact h
    rw [if_pos h200]
    simp only [hroutes]
    refine ⟨msgs.map Effect.print ++
      [Effect.print ("  Processing route " ++ toString (rc + 1) ++ " in file " ++ fn)] ++
      [Effect.print ("  Failed to snap route " ++ toString (rc + 1) ++ " in file " ++ fn)],
      by simp, ?_⟩
    simp [List.append_assoc]
  · rw [if_neg h200]
    simp only []
    refine ⟨msgs.map Effect.print ++
      [Effect.print ("  Processing route " ++ toString (rc + 1) ++ " in file " ++ fn)] ++
      [Effect.print ("Failed to snap to road: " ++
        toString (oracle (snapUrl d.start_lat d.start_lon d.waypoints
          d.end_lat d.end_lon)).status_code ++ ", " ++
        (oracle (snapUrl d.start_lat d.start_lon d.waypoints
          d.end_lat d.end_lon)).text)] ++
      [Effect.print ("  Failed to snap route " ++ toString (rc + 1) ++ " in file " ++ fn)],
      by simp, ?_⟩
    simp [List.append_assoc]

/-- C1 witness: a concrete accepted segment whose snapping request gets
an HTTP 500 answer is skipped with diagnostics and the loop goes on. -/
theorem c1_witness :
    ∃ ms, ms ≠ [] ∧
      processEntries modelGeod oracle500 p0 "a.json" [some segPlain] 0 [] =
        (ms ++ (processEntries modelGeod oracle500 p0 "a.json" [] 1 []).1,
         (processEntries modelGeod oracle500 p0 "a.json" [] 1 []).2) :=
  c1_snap_failure_recoverable modelGeod oracle500 p0 "a.json" segPlain [] 0 []
    [] dPlain (by decide) (Or.inl (by decide))

/-- C1 (counterexample): a routing response with status 200 whose body
carries an empty candidate-route list is not a recoverable SnapFailure:
the run crashes on `snapped_route['routes'][0]` with an IndexError
instead of omitting the segment and continuing. -/
theorem c1_counterexample :
    (process_takeout_data modelGeod oracleEmptyRoutes p0 [fileGood]).2 =
      .error .indexError := by
  decide
